import Mathlib

/-
Verification of the content-generation pipeline in scrap_chat_wiki.py.

The Python source is shallowly embedded below.  Conventions:
  * Python floats (timestamps, delays, parsed seconds) are modelled as exact
    rationals.
  * Network and model responses are supplied by oracles (functions from call
    index / query string to an outcome), so the control flow of the source is
    embedded exactly while the outside world stays abstract.
  * Exceptions are modelled with Except; `raise` becomes `.error`, a
    try/except that swallows the error becomes a match that discards it.
  * time.sleep and print have no observable effect other than, for sleeps,
    the delay value chosen, which the embedding records so that properties
    about waiting times can be stated.  After time.sleep(w) the clock reads
    now + w.
  * String operations (strip, lower, the regexes of slugify and of the
    retry-hint parser) are embedded character by character over ASCII; the
    Python originals are Unicode-aware but every claim below is settled on
    ASCII data.
-/

/-- ASCII whitespace, the characters Python's str.strip and the regex
class \s treat as space. -/
def isPySpace (c : Char) : Bool :=
  c = ' ' || c = '\t' || c = '\n' || c = '\r' || c = '\x0b' || c = '\x0c'

/-- Python str.strip(): drop leading and trailing whitespace. -/
def pyStrip (s : String) : String :=
  String.mk (((s.data.dropWhile isPySpace).reverse.dropWhile isPySpace).reverse)

/-- MAX_CHARS_PROMPT = 12000 (scrap_chat_wiki.py, CONFIG block). -/
def MAX_CHARS_PROMPT : Nat := 12000

/-- SAVE_DIR = "saida_wiki". -/
def SAVE_DIR : String := "saida_wiki"

/-- FREE_TIER_RPM = 15. -/
def FREE_TIER_RPM : ℚ := 15

/-- A word character of the regex class \w (ASCII part): alphanumeric or
underscore. -/
def isWordChar (c : Char) : Bool := c.isAlphanum || c = '_'

/-- A character of the regex class [\s_-]. -/
def isSlugSep (c : Char) : Bool := isPySpace c || c = '_' || c = '-'

/-- re.sub(r"[\s_-]+", "_", s): replace each maximal run of separator
characters by a single underscore.  The flag records whether the previous
character belonged to a run. -/
def collapseSeps : Bool → List Char → List Char
  | _, [] => []
  | prevSep, c :: cs =>
    if isSlugSep c then
      if prevSep then collapseSeps true cs
      else '_' :: collapseSeps true cs
    else c :: collapseSeps false cs

/-- slugify (scrap_chat_wiki.py lines 63-66):
strip characters outside [\w\s-], collapse separator runs to "_",
strip leading/trailing "_", truncate to 100 characters. -/
def slugify (s : String) : String :=
  let kept := s.data.filter (fun c => isWordChar c || isPySpace c || c = '-')
  let collapsed := collapseSeps false kept
  let stripped :=
    ((collapsed.dropWhile (fun c => c = '_')).reverse.dropWhile
      (fun c => c = '_')).reverse
  String.mk (stripped.take 100)

/-- truncate_for_prompt (lines 124-125): the text itself when within the
limit, otherwise the first max_chars characters followed by the truncation
marker. -/
def truncate_for_prompt (text : String) (max_chars : Nat) : String :=
  if text.length ≤ max_chars then text
  else text.take max_chars ++ "\n\n[Texto truncado por comprimento.]"

/-- _client_throttle_sleep (lines 128-140), as a function of the
configuration, the stored timestamp of the previous call and the current
clock.  Returns (seconds slept, new value of the module-global
_last_call_ts).  When throttling is disabled or the rpm budget is not
positive the function returns at once without touching the timestamp;
otherwise it sleeps any missing part of the minimum interval and stores the
clock value read after the sleep. -/
def client_throttle_sleep (enforce : Bool) (rpm : ℚ) (last_call_ts now : ℚ) :
    ℚ × ℚ :=
  if enforce = false ∨ rpm ≤ 0 then (0, last_call_ts)
  else
    let min_interval := 60 / rpm
    let elapsed := now - last_call_ts
    if elapsed < min_interval then
      (min_interval - elapsed, now + (min_interval - elapsed))
    else (0, now)

/-- Case-insensitive literal prefix match: returns the rest of the input
when the pattern matches, character by character, up to ASCII case. -/
def stripPrefixCI : List Char → List Char → Option (List Char)
  | [], s => some s
  | _ :: _, [] => none
  | p :: ps, c :: cs =>
    if c.toLower = p.toLower then stripPrefixCI ps cs else none

/-- Digit list to natural number, most significant first. -/
def digitsToNat (ds : List Char) : Nat :=
  ds.foldl (fun acc c => acc * 10 + (c.toNat - '0'.toNat)) 0

/-- The numeric value of an integer digit part and a fractional digit part,
as an exact rational (float("12.5") modelled exactly). -/
def ratOfParts (intPart fracPart : List Char) : ℚ :=
  (digitsToNat intPart : ℚ) + (digitsToNat fracPart : ℚ) / (10 : ℚ) ^ fracPart.length

/-- One anchored attempt of the regex
  retry in\s+([0-9]+(?:\.[0-9]+)?)s   (IGNORECASE)
at the head of the input, returning the captured integer and fractional
digit runs.  Greedy matching without backtracking coincides with the regex
here: shortening a digit run leaves a digit where `s` is required, and
dropping a present `.digits` leaves the dot, so the greedy parse is the
only candidate. -/
def matchRetryAt (s : List Char) : Option (List Char × List Char) :=
  match stripPrefixCI ("retry in".data) s with
  | none => none
  | some r1 =>
    let sp := r1.takeWhile isPySpace
    let r2 := r1.dropWhile isPySpace
    let ds := r2.takeWhile Char.isDigit
    let r3 := r2.dropWhile Char.isDigit
    if sp.isEmpty ∨ ds.isEmpty then none
    else
      match r3 with
      | '.' :: r4 =>
        let fr := r4.takeWhile Char.isDigit
        let r5 := r4.dropWhile Char.isDigit
        if fr.isEmpty then none
        else
          match r5 with
          | c :: _ => if c.toLower = 's' then some (ds, fr) else none
          | [] => none
      | c :: _ => if c.toLower = 's' then some (ds, []) else none
      | [] => none

/-- re.search: try the anchored match at each position, left to right. -/
def searchRetry : List Char → Option (List Char × List Char)
  | [] => none
  | c :: cs =>
    match matchRetryAt (c :: cs) with
    | some v => some v
    | none => searchRetry cs

/-- _parse_retry_seconds_from_error (lines 142-152): extract the suggested
wait from text like "Please retry in 36.281175467s", None when absent.
(The float() conversion cannot fail on a string the regex accepted, so the
except branch of the source is unreachable.) -/
def parse_retry_seconds_from_error (err_msg : String) : Option ℚ :=
  (searchRetry err_msg.data).map (fun p => ratOfParts p.1 p.2)

/-- The delay chosen in the except branch of call_gemini_with_retry
(lines 170-175): the parsed hint verbatim when present, otherwise
min(2.0 ** (attempt - 1), 60.0). -/
def retry_delay (msg : String) (attempt : Nat) : ℚ :=
  match parse_retry_seconds_from_error msg with
  | some v => v
  | none => min ((2 : ℚ) ^ (attempt - 1)) 60


/-- The outcome of one model.generate_content call, supplied by an oracle.
raise: the call threw, with the exception's message (str(e)).
resp: the call returned a response object; the field is its text attribute
(none for a falsy response object or a missing/None text attribute). -/
inductive GenOutcome where
  | raise (msg : String)
  | resp (text : Option String)

/-- The body of the try block of call_gemini_with_retry (lines 163-168) for
one attempt: a falsy response or falsy text raises
RuntimeError("Resposta vazia do modelo."), whose message the except branch
sees via str(e); otherwise the stripped text is returned.  The result is
the attempt's success value or the error message caught by the except
branch. -/
def gen_attempt_result : GenOutcome → Except String String
  | .raise m => .error m
  | .resp none => .error "Resposta vazia do modelo."
  | .resp (some t) =>
    if t = "" then .error "Resposta vazia do modelo." else .ok (pyStrip t)

/-- The loop of call_gemini_with_retry (lines 161-178).  fuel counts the
remaining attempts, attempt the 1-based attempt number; the accumulator
collects the sleeps performed after failed attempts (the loop sleeps even
after the last attempt, before the final raise, exactly as in the source).
Returns the result (error () for exhaustion) and the sleeps in order. -/
def call_gemini_aux (out : Nat → GenOutcome) :
    Nat → Nat → List ℚ → Except Unit String × List ℚ
  | 0, _, acc => (.error (), acc.reverse)
  | n + 1, attempt, acc =>
    match gen_attempt_result (out attempt) with
    | .ok t => (.ok t, acc.reverse)
    | .error msg =>
      call_gemini_aux out n (attempt + 1) (retry_delay msg attempt :: acc)

/-- call_gemini_with_retry (lines 154-179): attempts 1..max_retries, the
exhaustion error carrying the message of the final raise. -/
def call_gemini_with_retry (out : Nat → GenOutcome) (max_retries : Nat) :
    Except String String × List ℚ :=
  match call_gemini_aux out max_retries 1 [] with
  | (.ok t, ds) => (.ok t, ds)
  | (.error (), ds) =>
    (.error ("Falhou após " ++ toString max_retries ++ " tentativas."), ds)

/-- The primary prompt of generate_text_with_gemini (lines 182-189). -/
def primary_prompt (base_text : String) : String :=
  "Reescreva o texto abaixo de forma objetiva, neutra e enciclopédica,\n" ++
  "sem incluir títulos ou seções, sem linguagem promocional,\n" ++
  "sem estrutura de artigo didático.\n" ++
  "Estilo desejado: semelhante ao da Wikipédia.\n\n" ++
  "Texto de base:\n" ++ base_text ++ "\n"

/-- The alternate prompt (line 196). -/
def alt_prompt (base_text : String) : String :=
  "Reformule de modo autoral e objetivo o texto a seguir, mantendo precisão:\n\n"
  ++ base_text

/-- generate_text_with_gemini (lines 181-197).  The oracle gives, for each
prompt string and each 1-based attempt number, the outcome of the
generate_content call.  The primary prompt is tried with max_retries=6;
any exception from that call (only exhaustion can escape it) triggers one
run with the alternate prompt, also max_retries=6, whose outcome is
returned or propagated.  The Bool records whether the alternate prompt was
used. -/
def generate_text_with_gemini (gen : String → Nat → GenOutcome)
    (base_text : String) : Except String String × Bool :=
  match call_gemini_with_retry (gen (primary_prompt base_text)) 6 with
  | (.ok t, _) => (.ok t, false)
  | (.error _, _) =>
    ((call_gemini_with_retry (gen (alt_prompt base_text)) 6).1, true)

/-- The outcome of one requests.get in wiki_request, supplied by an oracle
indexed by the 0-based attempt number.
forbidden: status 403 (handled before raise_for_status);
failure: an exception — timeout, connection error, or raise_for_status on
a 4xx/5xx status — with str(e);
success: a 2xx response whose parsed JSON is the payload. -/
inductive ReqOutcome (α : Type) where
  | forbidden
  | failure (msg : String)
  | success (v : α)

/-- The loop of wiki_request (lines 68-82).  fuel counts remaining
attempts, i the 0-based loop index, lastErr the last exception message
(the 403 branch does not update it, exactly as in the source), acc the
sleeps performed.  Each failed attempt sleeps backoff ** (i + 1).
Exhaustion raises carrying last_err. -/
def wiki_request_aux {α : Type} (out : Nat → ReqOutcome α) (backoff : ℚ) :
    Nat → Nat → Option String → List ℚ → Except (Option String) α × List ℚ
  | 0, _, lastErr, acc => (.error lastErr, acc.reverse)
  | n + 1, i, lastErr, acc =>
    match out i with
    | .success v => (.ok v, acc.reverse)
    | .forbidden =>
      wiki_request_aux out backoff n (i + 1) lastErr (backoff ^ (i + 1) :: acc)
    | .failure m =>
      wiki_request_aux out backoff n (i + 1) (some m) (backoff ^ (i + 1) :: acc)

/-- wiki_request (lines 68-82) with its default arguments retries=3,
backoff=1.5 passed explicitly.  Returns the parsed JSON of the first
successful attempt, or the exhaustion error carrying the last exception
message, together with the list of sleeps performed. -/
def wiki_request {α : Type} (out : Nat → ReqOutcome α) (retries : Nat)
    (backoff : ℚ) : Except (Option String) α × List ℚ :=
  wiki_request_aux out backoff retries 0 none []

/-- search_wikipedia_title (lines 84-88) applied to the opensearch
response, modelled as a list of title lists (the code reads only data[1],
the candidate titles): titles = data[1] if len(data) > 1 else [];
return titles[0] if titles else None. -/
def search_wikipedia_title (data : List (List String)) : Option String :=
  (data.getD 1 []).head?

/-- One entry of data["query"]["pages"] as read by get_wikipedia_article:
either the pages dict is empty, or its first page carries a missing
marker (page.get("missing") == "" or page.get("pageid") == -1), an
optional "title" field and an "extract" field defaulting to "". -/
inductive PageResult where
  | noPages
  | page (missing : Bool) (title : Option String) (extract : String)

/-- The network behaviour seen by the resolution logic: the pages result of
the extracts query for a title, and the opensearch response for a query.
Both endpoints are reached through wiki_request in the source; the oracle
models the JSON of a completed call (wiki_request's own failure behaviour
is embedded separately above). -/
structure WikiOracle where
  query : String → PageResult
  search : String → List (List String)

/-- The errors get_wikipedia_article raises: the two ValueError sites for
an unresolvable title, the ValueError for a page with no readable extract,
and exhaustion of the recursion fuel of the embedding (the source recurses
without any depth bound). -/
inductive WikiError where
  | notFound (title : String)
  | noContent (title : String)
  | fuelOut
deriving DecidableEq

/-- get_wikipedia_article (lines 90-122).  Returns the resolution result
together with the number of search_wikipedia_title invocations performed
while resolving this call (its own plus those of recursive calls).  The
source recurses with the top search hit whenever the pages dict is empty
or the page carries a missing marker; a search with no hit raises
ValueError; a found page with empty extract raises ValueError; otherwise
the normalized title (page.get("title", title)) and extract are
returned. -/
def get_wikipedia_article (o : WikiOracle) :
    Nat → String → Except WikiError (String × String) × Nat
  | 0, _ => (.error .fuelOut, 0)
  | fuel + 1, title =>
    match o.query title with
    | .noPages =>
      match search_wikipedia_title (o.search title) with
      | none => (.error (.notFound title), 1)
      | some alt =>
        let r := get_wikipedia_article o fuel alt
        (r.1, r.2 + 1)
    | .page missing t? extract =>
      if missing then
        match search_wikipedia_title (o.search title) with
        | none => (.error (.notFound title), 1)
        | some alt =>
          let r := get_wikipedia_article o fuel alt
          (r.1, r.2 + 1)
      else
        let normalized_title := t?.getD title
        if extract = "" then (.error (.noContent normalized_title), 0)
        else (.ok (normalized_title, extract), 0)

/-- save_texts (lines 203-210) over a filesystem modelled as a list of
(path, content) entries, newest first.  writeOk says, per path, whether
opening and writing that file succeeds; a failed write raises (error) and
leaves the filesystem as written so far.  The original file is written
first, then the generated file, exactly as in the source. -/
def save_texts (writeOk : String → Bool) (base_dir title original generated :
    String) (fs : List (String × String)) :
    Except Unit Unit × List (String × String) :=
  let base := slugify title
  let f1 := base_dir ++ "/" ++ base ++ "__original.txt"
  let f2 := base_dir ++ "/" ++ base ++ "__ia.txt"
  if writeOk f1 then
    if writeOk f2 then (.ok (), (f2, generated) :: (f1, original) :: fs)
    else (.error (), (f1, original) :: fs)
  else (.error (), fs)

/-- The whole outside world of one batch run: the wiki responses, the
generation outcomes per prompt and attempt, the per-path write outcomes,
and the recursion fuel given to the resolution embedding. -/
structure Env where
  wiki : WikiOracle
  gen : String → Nat → GenOutcome
  writeOk : String → Bool
  fuel : Nat

/-- collect_and_generate_for_title (lines 213-221): resolve the article,
truncate it for the prompt, rewrite it, persist the pair; the surrounding
try/except swallows any exception from any stage, leaving the filesystem
as written so far.  The second component records the base text handed to
generate_text_with_gemini (none when resolution already failed), so that
properties about what the model was shown can be stated. -/
def collect_and_generate_for_title (env : Env) (raw_title : String)
    (fs : List (String × String)) :
    List (String × String) × Option String :=
  match (get_wikipedia_article env.wiki env.fuel raw_title).1 with
  | .error _ => (fs, none)
  | .ok (norm_title, original_text) =>
    let prompt_text := truncate_for_prompt original_text MAX_CHARS_PROMPT
    match (generate_text_with_gemini env.gen prompt_text).1 with
    | .error _ => (fs, some prompt_text)
    | .ok generated =>
      ((save_texts env.writeOk SAVE_DIR norm_title original_text generated
        fs).2, some prompt_text)

/-- The loop of main (lines 351-352): each topic is processed in order,
every per-topic failure having been swallowed inside
collect_and_generate_for_title. -/
def main_loop (env : Env) (articles : List String)
    (fs : List (String × String)) : List (String × String) :=
  articles.foldl (fun acc t => (collect_and_generate_for_title env t acc).1) fs

/-- The file name save_texts gives the original text of a title. -/
def original_path (title : String) : String :=
  SAVE_DIR ++ "/" ++ slugify title ++ "__original.txt"

/-- The file name save_texts gives the generated text of a title. -/
def ia_path (title : String) : String :=
  SAVE_DIR ++ "/" ++ slugify title ++ "__ia.txt"

/-- Attempts 1..max_retries of a generate_content outcome stream all fail
(raise or produce falsy text): the condition under which
call_gemini_with_retry exhausts its ceiling. -/
def attempts_exhaust (out : Nat → GenOutcome) (max_retries : Nat) : Prop :=
  ∀ i, 1 ≤ i → i ≤ max_retries → ∃ m, gen_attempt_result (out i) = .error m

/-- Does this pages result take the search-fallback branch of
get_wikipedia_article (empty pages dict, or missing marker)? -/
def page_is_missing : PageResult → Bool
  | .noPages => true
  | .page missing _ _ => missing

/-- A wiki world where every title lookup reports a missing page, searching
for "A" suggests "B", and searching for anything else finds nothing. -/
def missingWorld : WikiOracle where
  query := fun _ => PageResult.page true none ""
  search := fun t => if t = "A" then [["A"], ["B"]] else [["B"], []]

/-- A wiki world where every lookup finds the page "T" with body "corpo". -/
def foundWorld : WikiOracle where
  query := fun _ => PageResult.page false (some "T") "corpo"
  search := fun _ => []

/-- A batch environment where the topic "Good" resolves to an article,
every other topic is missing with no search hit, the model answers
"texto gerado" on the first attempt of any prompt, and every file write
succeeds. -/
def demoEnv : Env where
  wiki :=
    { query := fun t =>
        if t = "Good" then PageResult.page false (some "Good") "corpo do artigo"
        else PageResult.page true none ""
      search := fun _ => [] }
  gen := fun _ _ => GenOutcome.resp (some "texto gerado")
  writeOk := fun _ => true
  fuel := 5

-- Concrete sanity checks of the embedded definitions.
example : parse_retry_seconds_from_error "Please retry in 36.5s" = some (73/2) := by
  have h : searchRetry "Please retry in 36.5s".data = some (['3', '6'], ['5']) := by decide
  have h1 : digitsToNat ['3', '6'] = 36 := by decide
  have h2 : digitsToNat ['5'] = 5 := by decide
  simp [parse_retry_seconds_from_error, h, ratOfParts, h1, h2]
  norm_num

example : parse_retry_seconds_from_error "Error 429: Please retry in 12.5s later" = some (25/2) := by
  have h : searchRetry "Error 429: Please retry in 12.5s later".data = some (['1', '2'], ['5']) := by
    decide
  have h1 : digitsToNat ['1', '2'] = 12 := by decide
  have h2 : digitsToNat ['5'] = 5 := by decide
  simp [parse_retry_seconds_from_error, h, ratOfParts, h1, h2]
  norm_num

example : parse_retry_seconds_from_error "quota exceeded" = none := by
  have h : searchRetry "quota exceeded".data = none := by decide
  simp [parse_retry_seconds_from_error, h]

example : retry_delay "quota exceeded" 7 = 60 := by
  have h : searchRetry "quota exceeded".data = none := by decide
  simp [retry_delay, parse_retry_seconds_from_error, h]
  norm_num
example : slugify "Banco de dados" = "Banco_de_dados" := by decide
example : pyStrip "  ok  " = "ok" := by decide

/-- C2: with throttling enforced and a positive rpm budget, the timestamp
stored on return is at least 60/rpm after the stored timestamp of the
previous call, and it equals the clock at the moment of return (entry time
plus the sleep performed). -/
theorem c2_throttle_spacing (rpm last_call_ts now : ℚ) (h : 0 < rpm) :
    60 / rpm ≤ (client_throttle_sleep true rpm last_call_ts now).2 - last_call_ts ∧
    (client_throttle_sleep true rpm last_call_ts now).2 =
      now + (client_throttle_sleep true rpm last_call_ts now).1 := by
  have hc : ¬ (true = false ∨ rpm ≤ 0) := by
    rintro (h1 | h2)
    · exact Bool.noConfusion h1
    · exact absurd h (not_lt.mpr h2)
  by_cases hlt : now - last_call_ts < 60 / rpm
  · simp only [client_throttle_sleep, if_neg hc, if_pos hlt]
    constructor
    · linarith
    · ring_nf
  · simp only [client_throttle_sleep, if_neg hc, if_neg hlt]
    constructor
    · linarith [not_lt.mp hlt]
    · ring_nf

/-- Witness for c2_throttle_spacing at rpm = 15, previous timestamp 0,
entry time 1: the throttle returns at a timestamp at least 4 seconds after
the previous call. -/
theorem c2_throttle_spacing_witness :
    (0 : ℚ) < 15 ∧
    (60 / 15 ≤ (client_throttle_sleep true 15 0 1).2 - 0 ∧
     (client_throttle_sleep true 15 0 1).2 =
       1 + (client_throttle_sleep true 15 0 1).1) :=
  ⟨by norm_num, c2_throttle_spacing 15 0 1 (by norm_num)⟩

/-- When every attempt in range fails, the retry loop records exactly one
sleep per attempt, each chosen by retry_delay from that attempt's error
message and 1-based attempt number. -/
theorem call_gemini_aux_all_fail (out : Nat → GenOutcome) (m : Nat → String)
    (hfail : ∀ i, gen_attempt_result (out i) = .error (m i)) :
    ∀ (n start : Nat) (acc : List ℚ),
      call_gemini_aux out n start acc =
        (.error (), acc.reverse ++
          (List.range n).map (fun j => retry_delay (m (start + j)) (start + j))) := by
  intro n
  induction n with
  | zero => intro start acc; simp [call_gemini_aux]
  | succ k ih =>
    intro start acc
    rw [call_gemini_aux, hfail start]
    change call_gemini_aux out k (start + 1) (retry_delay (m start) start :: acc) = _
    rw [ih (start + 1) (retry_delay (m start) start :: acc)]
    rw [List.range_succ_eq_map]
    simp only [List.map_cons, List.map_map, List.reverse_cons, List.append_assoc,
      List.cons_append, List.nil_append, Nat.add_zero]
    have hfun : (fun j => retry_delay (m (start + 1 + j)) (start + 1 + j)) =
        ((fun j => retry_delay (m (start + j)) (start + j)) ∘ Nat.succ) := by
      funext j
      simp only [Function.comp_apply, Nat.succ_eq_add_one]
      have h1 : start + (j + 1) = start + 1 + j := by omega
      rw [h1]
    rw [hfun]

/-- C1: over any sequence of failing generation attempts, the sleep the
retry loop records for the attempt numbered j+1 (whose error message is
msgs[j]) is the numeric seconds value parsed out of the error text when
one is present, and min(2^((j+1)-1), 60) otherwise. -/
theorem c1_retry_delay_decision (msgs : List String) :
    (call_gemini_with_retry (fun i => GenOutcome.raise (msgs.getD (i - 1) ""))
      msgs.length).2 =
    (List.range msgs.length).map (fun j =>
      match parse_retry_seconds_from_error (msgs.getD j "") with
      | some v => v
      | none => min ((2 : ℚ) ^ j) 60) := by
  have hall := call_gemini_aux_all_fail
    (fun i => GenOutcome.raise (msgs.getD (i - 1) ""))
    (fun i => msgs.getD (i - 1) "") (fun i => rfl) msgs.length 1 []
  simp only [call_gemini_with_retry, hall, List.reverse_nil, List.nil_append]
  apply List.map_congr_left
  intro j _
  have h1 : 1 + j - 1 = j := by omega
  have h2 : 1 + j = j + 1 := by omega
  rw [h1, h2, retry_delay]
  simp only [Nat.add_sub_cancel]

/-- The retry loop exhausts (reaches the final raise) exactly when each of
the n attempts starting at attempt number start fails. -/
theorem call_gemini_aux_error_iff (out : Nat → GenOutcome) :
    ∀ (n start : Nat) (acc : List ℚ),
      (call_gemini_aux out n start acc).1 = .error () ↔
        ∀ i, start ≤ i → i < start + n →
          ∃ m, gen_attempt_result (out i) = .error m := by
  intro n
  induction n with
  | zero =>
    intro start acc
    simp only [call_gemini_aux]
    constructor
    · intro _ i h1 h2
      omega
    · intro _
      trivial
  | succ k ih =>
    intro start acc
    rw [call_gemini_aux]
    cases hres : gen_attempt_result (out start) with
    | ok t =>
      constructor
      · intro h
        exact absurd h (by simp)
      · intro hall
        obtain ⟨m, hm⟩ := hall start le_rfl (by omega)
        rw [hres] at hm
        exact Except.noConfusion hm
    | error msg =>
      rw [ih (start + 1) (retry_delay msg start :: acc)]
      constructor
      · intro hall i h1 h2
        rcases Nat.eq_or_lt_of_le h1 with heq | hlt
        · exact ⟨msg, heq ▸ hres⟩
        · exact hall i (by omega) (by omega)
      · intro hall i h1 h2
        exact hall i (by omega) (by omega)

/-- call_gemini_with_retry fails (with its exhaustion error) exactly when
attempts 1..max_retries all fail; otherwise it succeeds. -/
theorem call_gemini_with_retry_error_iff (out : Nat → GenOutcome)
    (max_retries : Nat) :
    (∃ e, (call_gemini_with_retry out max_retries).1 = .error e) ↔
      attempts_exhaust out max_retries := by
  have hiff := call_gemini_aux_error_iff out max_retries 1 []
  unfold call_gemini_with_retry
  cases haux : call_gemini_aux out max_retries 1 [] with
  | mk r ds =>
    rw [haux] at hiff
    cases r with
    | ok t =>
      simp only []
      constructor
      · rintro ⟨e, he⟩
        exact Except.noConfusion he
      · intro hall
        have : Except.ok (ε := Unit) t = .error () := hiff.mpr
          (fun i h1 h2 => hall i h1 (by omega))
        exact Except.noConfusion this
    | error u =>
      cases u
      simp only []
      constructor
      · rintro ⟨e, _⟩
        intro i h1 h2
        exact hiff.mp rfl i h1 (by omega)
      · intro _
        exact ⟨_, rfl⟩

/-- The behaviour of generate_text_with_gemini in terms of the two prompt
runs: the alternate prompt is used exactly when the primary prompt's run
exhausts its ceiling, and the overall call fails exactly when both runs
exhaust theirs. -/
theorem generate_text_with_gemini_spec (gen : String → Nat → GenOutcome)
    (base_text : String) :
    ((generate_text_with_gemini gen base_text).2 = true ↔
      attempts_exhaust (gen (primary_prompt base_text)) 6) ∧
    ((∃ e, (generate_text_with_gemini gen base_text).1 = .error e) ↔
      (attempts_exhaust (gen (primary_prompt base_text)) 6 ∧
       attempts_exhaust (gen (alt_prompt base_text)) 6)) := by
  have hp := call_gemini_with_retry_error_iff (gen (primary_prompt base_text)) 6
  have ha := call_gemini_with_retry_error_iff (gen (alt_prompt base_text)) 6
  unfold generate_text_with_gemini
  cases hpc : call_gemini_with_retry (gen (primary_prompt base_text)) 6 with
  | mk r ds =>
    rw [hpc] at hp
    cases r with
    | ok t =>
      simp only []
      constructor
      · constructor
        · intro h
          exact Bool.noConfusion h
        · intro hex
          exact absurd (hp.mpr hex).choose_spec (by simp)
      · constructor
        · rintro ⟨e, he⟩
          exact Except.noConfusion he
        · rintro ⟨hex, _⟩
          exact absurd (hp.mpr hex).choose_spec (by simp)
    | error msg =>
      have hexp : attempts_exhaust (gen (primary_prompt base_text)) 6 :=
        hp.mp ⟨msg, rfl⟩
      simp only []
      constructor
      · simp [hexp]
      · cases hac : call_gemini_with_retry (gen (alt_prompt base_text)) 6 with
        | mk ra dsa =>
          rw [hac] at ha
          cases ra with
          | ok ta =>
            simp only []
            constructor
            · rintro ⟨e, he⟩
              exact Except.noConfusion he
            · rintro ⟨_, hexa⟩
              exact absurd (ha.mpr hexa).choose_spec (by simp)
          | error msga =>
            simp only []
            constructor
            · intro _
              exact ⟨hexp, ha.mp ⟨msga, rfl⟩⟩
            · intro _
              exact ⟨msga, rfl⟩

/-- C3: the rewrite falls back to the alternate prompt exactly when the
primary prompt's 6 attempts have all failed, and the exhaustion error is
raised if and only if the alternate prompt's own 6 attempts also all fail;
a success on any attempt of either prompt yields a non-error result. -/
theorem c3_alternate_prompt_fallback (gen : String → Nat → GenOutcome)
    (base_text : String) :
    ((generate_text_with_gemini gen base_text).2 = true ↔
      attempts_exhaust (gen (primary_prompt base_text)) 6) ∧
    ((∃ e, (generate_text_with_gemini gen base_text).1 = .error e) ↔
      (attempts_exhaust (gen (primary_prompt base_text)) 6 ∧
       attempts_exhaust (gen (alt_prompt base_text)) 6)) :=
  generate_text_with_gemini_spec gen base_text

/-- C6 counterexample: a model response whose text is a single space is not
empty in Python's sense, so the emptiness check passes and the returned
value is the stripped text — the empty string — delivered as a success.
The rewrite operation therefore can return an empty string as a successful
result. -/
theorem c6_counterexample :
    (generate_text_with_gemini (fun _ _ => GenOutcome.resp (some " "))
      "texto base").1 = .ok "" := by
  rfl

/-- C6 amended: a response whose object or text attribute is falsy (missing
or the empty string) raises the internal empty-response error and follows
exactly the retryable-failure path, and such responses alone can never
produce a success; however the success value is the stripped text, so a
whitespace-only response is returned as the empty string (see the
counterexample). -/
theorem c6_empty_response_retried (gen : String → Nat → GenOutcome)
    (base_text : String)
    (hp : ∀ i, gen (primary_prompt base_text) i = GenOutcome.resp none ∨
      gen (primary_prompt base_text) i = GenOutcome.resp (some ""))
    (ha : ∀ i, gen (alt_prompt base_text) i = GenOutcome.resp none ∨
      gen (alt_prompt base_text) i = GenOutcome.resp (some "")) :
    gen_attempt_result (GenOutcome.resp none) =
      .error "Resposta vazia do modelo." ∧
    gen_attempt_result (GenOutcome.resp (some "")) =
      .error "Resposta vazia do modelo." ∧
    ∃ e, (generate_text_with_gemini gen base_text).1 = .error e := by
  refine ⟨rfl, rfl, ?_⟩
  refine ((generate_text_with_gemini_spec gen base_text).2).mpr ⟨?_, ?_⟩
  · intro i _ _
    rcases hp i with h | h <;> rw [h] <;> exact ⟨_, rfl⟩
  · intro i _ _
    rcases ha i with h | h <;> rw [h] <;> exact ⟨_, rfl⟩

/-- Witness for c6_empty_response_retried: with every attempt of both
prompts answering an empty-text response, the rewrite ends in the
exhaustion error. -/
theorem c6_empty_response_retried_witness :
    gen_attempt_result (GenOutcome.resp none) =
      .error "Resposta vazia do modelo." ∧
    gen_attempt_result (GenOutcome.resp (some "")) =
      .error "Resposta vazia do modelo." ∧
    ∃ e, (generate_text_with_gemini (fun _ _ => GenOutcome.resp (some ""))
      "texto").1 = .error e :=
  c6_empty_response_retried (fun _ _ => GenOutcome.resp (some "")) "texto"
    (fun _ => Or.inr rfl) (fun _ => Or.inr rfl)

/-- C4 counterexample: in missingWorld, resolving the topic "A" reports a
missing page, searches (hit "B"), recurses with "B", finds "B" missing as
well and searches a second time before raising — two search-fallback hops
for one topic resolution, where the claim allows at most one. -/
theorem c4_counterexample :
    (get_wikipedia_article missingWorld 10 "A").2 = 2 ∧
    (get_wikipedia_article missingWorld 10 "A").1 =
      .error (.notFound "B") := by
  exact ⟨rfl, rfl⟩

/-- C4 amended: whenever the lookup of the current title reports a missing
page (empty pages dict or missing marker), a search with no hit raises the
not-found error, and a search hit makes the resolution recurse with that
hit — with no bound on how many search hops the recursion may take (the
counterexample shows a resolution taking two). -/
theorem c4_search_fallback_recursion (o : WikiOracle) (n : Nat)
    (title : String) (hmiss : page_is_missing (o.query title) = true) :
    (search_wikipedia_title (o.search title) = none →
      (get_wikipedia_article o (n + 1) title).1 = .error (.notFound title)) ∧
    (∀ alt, search_wikipedia_title (o.search title) = some alt →
      get_wikipedia_article o (n + 1) title =
        ((get_wikipedia_article o n alt).1,
         (get_wikipedia_article o n alt).2 + 1)) := by
  constructor
  · intro hs
    cases hq : o.query title with
    | noPages =>
      simp [get_wikipedia_article, hq, hs]
    | page missing t? extract =>
      rw [hq, page_is_missing] at hmiss
      simp [get_wikipedia_article, hq, hmiss, hs]
  · intro alt hs
    cases hq : o.query title with
    | noPages =>
      simp [get_wikipedia_article, hq, hs]
    | page missing t? extract =>
      rw [hq, page_is_missing] at hmiss
      simp [get_wikipedia_article, hq, hmiss, hs]

/-- Witness for c4_search_fallback_recursion: in missingWorld the title "B"
is missing and its search has no hit, so resolution raises the not-found
error. -/
theorem c4_search_fallback_recursion_witness :
    page_is_missing (missingWorld.query "B") = true ∧
    (get_wikipedia_article missingWorld 1 "B").1 = .error (.notFound "B") :=
  ⟨rfl, (c4_search_fallback_recursion missingWorld 0 "B" rfl).1 rfl⟩

/-- C9: a successful resolution never carries an empty body: whatever the
oracle answers and whatever fuel the recursion is given, an ok result of
get_wikipedia_article has a non-empty extract, because a found page with
empty extract raises instead of returning. -/
theorem c9_resolved_body_nonempty (o : WikiOracle) :
    ∀ (fuel : Nat) (title nt body : String),
      (get_wikipedia_article o fuel title).1 = .ok (nt, body) → body ≠ "" := by
  intro fuel
  induction fuel with
  | zero =>
    intro title nt body h
    exact Except.noConfusion h
  | succ n ih =>
    intro title nt body h
    rw [get_wikipedia_article] at h
    cases hq : o.query title with
    | noPages =>
      rw [hq] at h
      cases hs : search_wikipedia_title (o.search title) with
      | none => rw [hs] at h; exact Except.noConfusion h
      | some alt =>
        rw [hs] at h
        exact ih alt nt body h
    | page missing t? extract =>
      rw [hq] at h
      by_cases hm : missing = true
      · rw [hm] at h
        simp only [if_pos rfl] at h
        cases hs : search_wikipedia_title (o.search title) with
        | none => rw [hs] at h; exact Except.noConfusion h
        | some alt =>
          rw [hs] at h
          exact ih alt nt body h
      · rw [Bool.not_eq_true] at hm
        rw [hm] at h
        simp only [Bool.false_eq_true, if_false] at h
        by_cases he : extract = ""
        · rw [if_pos he] at h
          exact Except.noConfusion h
        · rw [if_neg he] at h
          have hb : body = extract := by
            have := Except.ok.inj h
            exact (Prod.mk.injEq _ _ _ _ ▸ this).2.symm
          rw [hb]
          exact he

/-- Witness for c9_resolved_body_nonempty: in foundWorld the title "T"
resolves to the body "corpo", which is non-empty. -/
theorem c9_resolved_body_nonempty_witness :
    (get_wikipedia_article foundWorld 1 "T").1 = .ok ("T", "corpo") ∧
    "corpo" ≠ "" :=
  ⟨rfl, c9_resolved_body_nonempty foundWorld 1 "T" "T" "corpo" rfl⟩

/-- C5 counterexample: with every attempt of wiki_request failing, the
recorded sleeps are 1.5, 2.25, 3.375 (backoff ** (i+1) with the source's
default backoff=1.5): the second delay is not double the first, so the
per-attempt delay does not double. -/
theorem c5_counterexample :
    (wiki_request (fun _ => ReqOutcome.failure (α := Unit) "timeout") 3
      (3/2)).2 = [3/2, 9/4, 27/8] ∧
    ¬ ((9 : ℚ)/4 = 2 * (3/2)) := by
  constructor
  · show (wiki_request_aux _ _ 3 0 none []).2 = _
    norm_num [wiki_request_aux]
  · norm_num

/-- C5 amended: network-level failures are retried up to the fixed ceiling
of 3 attempts; the delay after the 0-based attempt i is 1.5^(i+1) — a
geometric backoff with ratio 1.5, not doubling, and with no cap — and
exhausting the ceiling raises the upstream error. -/
theorem c5_backoff_and_exhaustion (out : Nat → ReqOutcome Unit)
    (h : ∀ i, i < 3 → ∀ v, out i ≠ ReqOutcome.success v) :
    (∃ e, (wiki_request out 3 (3/2)).1 = .error e) ∧
    (wiki_request out 3 (3/2)).2 = [3/2, 9/4, 27/8] := by
  have ho : ∀ i, i < 3 → out i = ReqOutcome.forbidden ∨
      ∃ m, out i = ReqOutcome.failure m := by
    intro i hi
    cases hoi : out i with
    | forbidden => exact Or.inl rfl
    | failure m => exact Or.inr ⟨m, rfl⟩
    | success v => exact absurd hoi (h i hi v)
  rcases ho 0 (by norm_num) with h0 | ⟨m0, h0⟩ <;>
    rcases ho 1 (by norm_num) with h1 | ⟨m1, h1⟩ <;>
    rcases ho 2 (by norm_num) with h2 | ⟨m2, h2⟩ <;>
    constructor <;>
    simp [wiki_request, wiki_request_aux, h0, h1, h2] <;>
    norm_num

/-- Witness for c5_backoff_and_exhaustion: all three attempts failing with
a connection error gives the geometric delays and the final raise. -/
theorem c5_backoff_and_exhaustion_witness :
    (∃ e, (wiki_request (fun _ => ReqOutcome.failure (α := Unit) "erro") 3
      (3/2)).1 = .error e) ∧
    (wiki_request (fun _ => ReqOutcome.failure (α := Unit) "erro") 3
      (3/2)).2 = [3/2, 9/4, 27/8] :=
  c5_backoff_and_exhaustion (fun _ => ReqOutcome.failure "erro")
    (fun _ _ _ h => ReqOutcome.noConfusion h)

/-- C7 counterexample: a run in which the original file writes fine and the
generated file's write fails ends with the original file present and no
generated file — a partial pair persists after a failing run, so
persistence is not all-or-nothing across write failures. -/
theorem c7_counterexample :
    (save_texts (fun f => f != "saida_wiki/Titulo__ia.txt") "saida_wiki"
      "Titulo" "orig" "gen" []).1 = .error () ∧
    (save_texts (fun f => f != "saida_wiki/Titulo__ia.txt") "saida_wiki"
      "Titulo" "orig" "gen" []).2 =
      [("saida_wiki/Titulo__original.txt", "orig")] :=
  ⟨rfl, rfl⟩

/-- C7 amended: save_texts succeeds exactly when both file writes succeed,
and a successful run leaves both the original and the generated file
present; when the second write fails the original file remains without its
companion (the counterexample), so the all-or-nothing guarantee holds only
for successful runs. -/
theorem c7_pair_on_success (writeOk : String → Bool)
    (base_dir title original generated : String)
    (fs : List (String × String)) :
    ((save_texts writeOk base_dir title original generated fs).1 = .ok () ↔
      (writeOk (base_dir ++ "/" ++ slugify title ++ "__original.txt") = true ∧
       writeOk (base_dir ++ "/" ++ slugify title ++ "__ia.txt") = true)) ∧
    ((save_texts writeOk base_dir title original generated fs).1 = .ok () →
      (base_dir ++ "/" ++ slugify title ++ "__original.txt", original) ∈
        (save_texts writeOk base_dir title original generated fs).2 ∧
      (base_dir ++ "/" ++ slugify title ++ "__ia.txt", generated) ∈
        (save_texts writeOk base_dir title original generated fs).2) := by
  by_cases h1 : writeOk (base_dir ++ "/" ++ slugify title ++ "__original.txt")
  · by_cases h2 : writeOk (base_dir ++ "/" ++ slugify title ++ "__ia.txt")
    · simp [save_texts, h1, h2]
    · simp [save_texts, h1, h2]
  · simp [save_texts, h1]

/-- Witness for c7_pair_on_success: with every write succeeding, the run
succeeds and both files of the pair are present. -/
theorem c7_pair_on_success_witness :
    (save_texts (fun _ => true) "saida_wiki" "T" "o" "g" []).1 = .ok () ∧
    ("saida_wiki/T__original.txt", "o") ∈
      (save_texts (fun _ => true) "saida_wiki" "T" "o" "g" []).2 ∧
    ("saida_wiki/T__ia.txt", "g") ∈
      (save_texts (fun _ => true) "saida_wiki" "T" "o" "g" []).2 := by
  have h := (c7_pair_on_success (fun _ => true) "saida_wiki" "T" "o" "g" []).2
  have hok : (save_texts (fun _ => true) "saida_wiki" "T" "o" "g" []).1 =
      .ok () := rfl
  exact ⟨hok, (h hok).1, (h hok).2⟩

/-- save_texts only adds entries: anything already on the filesystem is
still there afterwards, whatever the write outcomes. -/
theorem save_texts_mono (writeOk : String → Bool)
    (base_dir title original generated : String)
    (fs : List (String × String)) (e : String × String) (he : e ∈ fs) :
    e ∈ (save_texts writeOk base_dir title original generated fs).2 := by
  by_cases h1 : writeOk (base_dir ++ "/" ++ slugify title ++ "__original.txt")
  · by_cases h2 : writeOk (base_dir ++ "/" ++ slugify title ++ "__ia.txt")
    · simp [save_texts, h1, h2, he]
    · simp [save_texts, h1, h2, he]
  · simp [save_texts, h1, he]

/-- Processing one topic only adds entries to the filesystem. -/
theorem collect_mono (env : Env) (t : String)
    (fs : List (String × String)) (e : String × String) (he : e ∈ fs) :
    e ∈ (collect_and_generate_for_title env t fs).1 := by
  rw [collect_and_generate_for_title]
  cases hres : (get_wikipedia_article env.wiki env.fuel t).1 with
  | error _ => exact he
  | ok p =>
    cases p with
    | mk nt orig =>
      simp only []
      cases hgen : (generate_text_with_gemini env.gen
          (truncate_for_prompt orig MAX_CHARS_PROMPT)).1 with
      | error _ => exact he
      | ok g => exact save_texts_mono _ _ _ _ _ _ _ he

/-- The batch loop only adds entries to the filesystem. -/
theorem main_loop_mono (env : Env) (l : List String) :
    ∀ (fs : List (String × String)) (e : String × String), e ∈ fs →
      e ∈ main_loop env l fs := by
  induction l with
  | nil => intro fs e he; exact he
  | cons t ts ih =>
    intro fs e he
    rw [main_loop, List.foldl_cons]
    exact ih _ e (collect_mono env t fs e he)

/-- A topic whose resolution, generation and both file writes succeed gets
its pair of entries written by collect_and_generate_for_title. -/
theorem collect_success_mem (env : Env) (t nt orig g : String)
    (fs : List (String × String))
    (h1 : (get_wikipedia_article env.wiki env.fuel t).1 = .ok (nt, orig))
    (h2 : (generate_text_with_gemini env.gen
      (truncate_for_prompt orig MAX_CHARS_PROMPT)).1 = .ok g)
    (h3 : env.writeOk (original_path nt) = true)
    (h4 : env.writeOk (ia_path nt) = true) :
    (original_path nt, orig) ∈ (collect_and_generate_for_title env t fs).1 ∧
    (ia_path nt, g) ∈ (collect_and_generate_for_title env t fs).1 := by
  rw [collect_and_generate_for_title, h1]
  simp only [h2]
  rw [original_path] at h3
  rw [ia_path] at h4
  simp [save_texts, h3, h4, original_path, ia_path]

/-- C8: per-topic failures never halt the batch — for any environment and
any surrounding topics (which may fail at any stage), a topic anywhere in
the list whose resolution, rewrite and both writes succeed ends the batch
with its original/generated pair persisted. -/
theorem c8_batch_failure_isolation (env : Env) (pre post : List String)
    (t nt orig g : String)
    (h1 : (get_wikipedia_article env.wiki env.fuel t).1 = .ok (nt, orig))
    (h2 : (generate_text_with_gemini env.gen
      (truncate_for_prompt orig MAX_CHARS_PROMPT)).1 = .ok g)
    (h3 : env.writeOk (original_path nt) = true)
    (h4 : env.writeOk (ia_path nt) = true) :
    (original_path nt, orig) ∈ main_loop env (pre ++ t :: post) [] ∧
    (ia_path nt, g) ∈ main_loop env (pre ++ t :: post) [] := by
  rw [main_loop, List.foldl_append, List.foldl_cons]
  have hc := collect_success_mem env t nt orig g
    (List.foldl (fun acc t => (collect_and_generate_for_title env t acc).1)
      [] pre) h1 h2 h3 h4
  exact ⟨main_loop_mono env post _ _ hc.1, main_loop_mono env post _ _ hc.2⟩

/-- Witness for c8_batch_failure_isolation: in demoEnv the topics before
and after "Good" both fail with a not-found error, yet the batch persists
the pair for "Good". -/
theorem c8_batch_failure_isolation_witness :
    (original_path "Good", "corpo do artigo") ∈
      main_loop demoEnv ["Ruim1", "Good", "Ruim2"] [] ∧
    (ia_path "Good", "texto gerado") ∈
      main_loop demoEnv ["Ruim1", "Good", "Ruim2"] [] :=
  c8_batch_failure_isolation demoEnv ["Ruim1"] ["Ruim2"] "Good" "Good"
    "corpo do artigo" "texto gerado" rfl rfl rfl rfl

/-- C10: for every resolved article, the base text handed to the rewrite
model is exactly truncate_for_prompt of the body — the marked truncation
when the body exceeds MAX_CHARS_PROMPT characters, the body itself
otherwise — while the original file persisted on a successful run receives
the full untruncated body. -/
theorem c10_truncation_vs_persistence (env : Env) (t nt orig : String)
    (fs : List (String × String))
    (h1 : (get_wikipedia_article env.wiki env.fuel t).1 = .ok (nt, orig)) :
    (collect_and_generate_for_title env t fs).2 =
      some (truncate_for_prompt orig MAX_CHARS_PROMPT) ∧
    (MAX_CHARS_PROMPT < orig.length →
      truncate_for_prompt orig MAX_CHARS_PROMPT =
        orig.take MAX_CHARS_PROMPT ++ "\n\n[Texto truncado por comprimento.]") ∧
    (orig.length ≤ MAX_CHARS_PROMPT →
      truncate_for_prompt orig MAX_CHARS_PROMPT = orig) ∧
    (∀ g, (generate_text_with_gemini env.gen
        (truncate_for_prompt orig MAX_CHARS_PROMPT)).1 = .ok g →
      env.writeOk (original_path nt) = true →
      (original_path nt, orig) ∈ (collect_and_generate_for_title env t fs).1) := by
  refine ⟨?_, ?_, ?_, ?_⟩
  · rw [collect_and_generate_for_title, h1]
    cases hgen : (generate_text_with_gemini env.gen
        (truncate_for_prompt orig MAX_CHARS_PROMPT)).1 with
    | error _ => simp [hgen]
    | ok g => simp [hgen]
  · intro hlong
    rw [truncate_for_prompt, if_neg (by omega)]
  · intro hshort
    rw [truncate_for_prompt, if_pos hshort]
  · intro g hg h3
    rw [collect_and_generate_for_title, h1]
    simp only [hg]
    rw [original_path] at h3
    by_cases h4 : env.writeOk (SAVE_DIR ++ "/" ++ slugify nt ++ "__ia.txt")
    · simp [save_texts, h3, h4, original_path]
    · simp [save_texts, h3, h4, original_path]

/-- Witness for c10_truncation_vs_persistence: the article body of "Good"
in demoEnv is within the limit, so the model sees the body itself, and the
persisted original file carries that body. -/
theorem c10_truncation_vs_persistence_witness :
    (collect_and_generate_for_title demoEnv "Good" []).2 =
      some (truncate_for_prompt "corpo do artigo" MAX_CHARS_PROMPT) ∧
    ("corpo do artigo".length ≤ MAX_CHARS_PROMPT →
      truncate_for_prompt "corpo do artigo" MAX_CHARS_PROMPT =
        "corpo do artigo") ∧
    (original_path "Good", "corpo do artigo") ∈
      (collect_and_generate_for_title demoEnv "Good" []).1 := by
  have h := c10_truncation_vs_persistence demoEnv "Good" "Good"
    "corpo do artigo" [] rfl
  exact ⟨h.1, h.2.2.1, h.2.2.2 "texto gerado" rfl rfl⟩
